import Mathlib

/-!
Formal model of the output-container layer of hummingbird ml, file
src/hummingbird/ml/_container.py: python-level values, the torchscript
input wrapper, the ONNX named-input adapter, container construction for
the PyTorch/TorchScript and ONNX backends, and the per-task-mode
operations (transform, predict, predict_proba, decision_function,
score_samples), together with theorems checking the natural-language
specification of that layer.

Numeric array data is modelled over the rationals; machine floating
point is not modelled, only the data-flow and shape behaviour of the
layer (which itself performs no numeric computation beyond adding a
configured scalar).
-/

/-- A host-resident numeric array (a numpy ndarray): shape, row-major
data, and the dtype name. -/
structure NDArray where
  shape : List Nat
  data : List Rat
  dtype : String
deriving DecidableEq

/-- numpy flatten: collapse to rank 1 keeping the row-major data. -/
def flatten1 (a : NDArray) : NDArray :=
  ⟨[a.data.length], a.data, a.dtype⟩

/-- Elementwise addition of a scalar to an array (numpy broadcast of
array + scalar, also used for the in-place form array += scalar). -/
def addScalar (a : NDArray) (v : Rat) : NDArray :=
  ⟨a.shape, a.data.map (fun q => q + v), a.dtype⟩

/-- Python exceptions raised by the container layer. arityAssert and
assertionError are both AssertionError in python; they are kept as two
constructors because they come from different raise sites (the input
arity assert inside get_named_inputs versus the construction asserts). -/
inductive Err where
  | unsupportedInputType (idx : Nat) (typeName : String)
  | indexError
  | arityAssert
  | assertionError
  | keyError (key : String)
  | typeError
  | attributeError
  | backendUnavailable
deriving DecidableEq

/-- Indexing an array on its leading axis (a[i] in numpy): the i-th row.
Indexing a rank-0 array raises, as numpy does. -/
def ndarrayRow (a : NDArray) (i : Nat) : Except Err NDArray :=
  match a.shape with
  | [] => Except.error Err.indexError
  | n :: rest =>
      if i < n then
        Except.ok ⟨rest, (a.data.drop (i * rest.prod)).take rest.prod, a.dtype⟩
      else Except.error Err.indexError

/-- A python value as it can appear among the positional inputs of a
prediction call: a numeric scalar, a numpy array, a torch tensor (with
its device), a pandas dataframe (named columns of equal length), a
python list of arrays (a pre-grouped input collection), or a value of
any other type (carrying its type name). -/
inductive PyVal where
  | scalar (q : Rat)
  | ndarray (a : NDArray)
  | tensor (a : NDArray) (device : Option String)
  | dataframe (cols : List (String × List Rat))
  | pylist (items : List NDArray)
  | other (typeName : String)
deriving DecidableEq

/-- The python type name of a value, as type(x) reports it. -/
def pyTypeName : PyVal → String
  | PyVal.scalar _ => "float"
  | PyVal.ndarray _ => "numpy.ndarray"
  | PyVal.tensor _ _ => "torch.Tensor"
  | PyVal.dataframe _ => "pandas.DataFrame"
  | PyVal.pylist _ => "list"
  | PyVal.other t => t

/-- Whether a value is a numpy array or a torch tensor (the only two
types the torchscript wrapper coercion loop accepts). -/
def isArrayOrTensor : PyVal → Bool
  | PyVal.ndarray _ => true
  | PyVal.tensor _ _ => true
  | _ => false

/-- Number of rows of a dataframe (len(df) in python). -/
def dfRows (cols : List (String × List Rat)) : Nat :=
  match cols with
  | [] => 0
  | c :: _ => c.2.length

/-- np.array(df): the rows-by-columns rectangular array of a frame. -/
def dfToArray (cols : List (String × List Rat)) : NDArray :=
  ⟨[dfRows cols, cols.length],
   (List.range (dfRows cols)).foldr
     (fun i acc => cols.map (fun c => c.2.getD i 0) ++ acc) [],
   "float64"⟩

/-- np.array of a python list of arrays: arrays of one common shape are
stacked along a new leading axis; a ragged list gives an object array
(the era-appropriate numpy behaviour, with the payload opaque here). -/
def stackArrays (items : List NDArray) : NDArray :=
  match items with
  | [] => ⟨[0], [], "float64"⟩
  | a :: rest =>
      if rest.all (fun b => b.shape = a.shape) then
        ⟨(a :: rest).length :: a.shape,
         ((a :: rest).map (fun b => b.data)).foldr (fun d acc => d ++ acc) [],
         a.dtype⟩
      else ⟨[(a :: rest).length], [], "object"⟩

/-- np.array(x) for one positional input, as the ONNX named-input loop
applies it: it never raises on the type of x; dtypes of arrays and
tensors are preserved, non-numeric values give 0-d object arrays. -/
def npArrayOf : PyVal → NDArray
  | PyVal.scalar q => ⟨[], [q], "float64"⟩
  | PyVal.ndarray a => a
  | PyVal.tensor a _ => a
  | PyVal.dataframe cols => dfToArray cols
  | PyVal.pylist items => stackArrays items
  | PyVal.other _ => ⟨[], [], "object"⟩

/-- len(x) on a python value: defined for lists, arrays and tensors
(leading axis) and dataframes (rows); TypeError otherwise. -/
def pyLenE : PyVal → Except Err Nat
  | PyVal.pylist items => Except.ok items.length
  | PyVal.ndarray a =>
      match a.shape with
      | [] => Except.error Err.typeError
      | n :: _ => Except.ok n
  | PyVal.tensor a _ =>
      match a.shape with
      | [] => Except.error Err.typeError
      | n :: _ => Except.ok n
  | PyVal.dataframe cols => Except.ok (dfRows cols)
  | PyVal.scalar _ => Except.error Err.typeError
  | PyVal.other _ => Except.error Err.typeError

/-- x[i] on a python value for a positional index i: list item, array or
tensor row; an integer index into a string-labelled dataframe is a
column-label lookup and raises KeyError; TypeError otherwise. -/
def pyItem (v : PyVal) (i : Nat) : Except Err PyVal :=
  match v with
  | PyVal.pylist items =>
      match items[i]? with
      | some a => Except.ok (PyVal.ndarray a)
      | none => Except.error Err.indexError
  | PyVal.ndarray a => (ndarrayRow a i).map PyVal.ndarray
  | PyVal.tensor a d => (ndarrayRow a i).map (fun r => PyVal.tensor r d)
  | PyVal.dataframe _ => Except.error (Err.keyError (toString i))
  | PyVal.scalar _ => Except.error Err.typeError
  | PyVal.other _ => Except.error Err.typeError

/-- The items v[i], v[i+1], ..., up to k further indices, as the python
loop for i in range(n) reads them; the first failing read raises. -/
def collectFrom (v : PyVal) : Nat → Nat → Except Err (List PyVal)
  | _, 0 => Except.ok []
  | i, k + 1 =>
      match pyItem v i with
      | Except.error e => Except.error e
      | Except.ok x =>
          match collectFrom v (i + 1) k with
          | Except.error e => Except.error e
          | Except.ok xs => Except.ok (x :: xs)

/-- The items v[0], ..., v[n-1] of a collection. -/
def collectItems (v : PyVal) (n : Nat) : Except Err (List PyVal) :=
  collectFrom v 0 n

/-- Modelled from the spec: the fixed well-known score-shift key,
constants.IFOREST_THRESHOLD of the operator-converters constants module,
which is not among the sources here; only its identity matters. -/
def IFOREST_THRESHOLD : String := "iforest_threshold"

/-- Modelled from the spec: the fixed well-known score-offset key,
constants.OFFSET of the operator-converters constants module, which is
not among the sources here; only its identity matters. -/
def OFFSET : String := "offset"

/-! ### The torchscript input wrapper -/

/-- The python type of the rebuilt positional-argument list: the wrapper
begins with inputs = [*inputs], so the value whose type the dataframe
guard then inspects is always a list. -/
def typeOfRebuiltArgs : String := "list"

/-- Body of the dataframe branch of the torchscript wrapper: take the
first positional input as a frame and split it into one column array per
column, each reshaped to rows-by-1, in column order. In the source this
body is guarded by the type comparison modelled in torchscript_wrapper;
the fallback arm is unreachable there. -/
def dataframeSplit (inputs : List PyVal) : List PyVal :=
  match inputs with
  | PyVal.dataframe cols :: _ =>
      cols.map (fun col => PyVal.ndarray ⟨[col.2.length, 1], col.2, "float64"⟩)
  | _ => inputs

/-- The device move at the end of the coercion loop: only applied when a
device is set and is not the cpu; non-tensors are left alone. -/
def moveTo (device : Option String) (v : PyVal) : PyVal :=
  match device with
  | some d =>
      if d = "cpu" then v
      else
        match v with
        | PyVal.tensor a _ => PyVal.tensor a (some d)
        | w => w
  | none => v

/-- One step of the wrapper coercion loop on positional input i: a numpy
array becomes a float32 torch tensor on the cpu (torch.from_numpy
followed by .float()), a torch tensor passes through unchanged, any
other type raises the unsupported-input-type RuntimeError carrying the
index and the type name; then the device move is applied. -/
def coerceInput (device : Option String) (i : Nat) (v : PyVal) : Except Err PyVal :=
  match v with
  | PyVal.ndarray a =>
      Except.ok (moveTo device (PyVal.tensor ⟨a.shape, a.data, "float32"⟩ (some "cpu")))
  | PyVal.tensor a d => Except.ok (moveTo device (PyVal.tensor a d))
  | w => Except.error (Err.unsupportedInputType i (pyTypeName w))

/-- The torchscript wrapper, up to the call of the wrapped function: the
positional arguments are rebuilt as a list, the dataframe guard compares
the type of that rebuilt list against DataFrame (and checks that pandas
is installed), and the coercion loop maps every input to the expected
type and device. -/
def torchscript_wrapper (pandasInstalled : Bool) (device : Option String)
    (inputs : List PyVal) : Except Err (List PyVal) :=
  let adapted :=
    if typeOfRebuiltArgs = "pandas.DataFrame" ∧ pandasInstalled = true then
      dataframeSplit inputs
    else inputs
  adapted.enum.mapM (fun p => coerceInput device p.1 p.2)

/-! ### PyTorch containers -/

/-- What calling forward on a torch model returns: on the converted
models either a single tensor or a tuple of tensors. Tensors are kept as
their host arrays; .cpu().numpy() is the identity on this data. -/
inductive TorchOut where
  | single (t : NDArray)
  | tuple (ts : List NDArray)
deriving DecidableEq

/-- A torch model: its forward pass on the positional inputs. -/
structure TorchModel where
  forward : List PyVal → TorchOut

/-- Indexing the result of forward, as forward(...)[i] does: a tuple is
indexed as a tuple; indexing a single tensor takes its i-th row. -/
def torchIndex : TorchOut → Nat → Except Err NDArray
  | TorchOut.tuple ts, i =>
      match ts[i]? with
      | some t => Except.ok t
      | none => Except.error Err.indexError
  | TorchOut.single t, i => ndarrayRow t i

/-- State of a constructed PyTorch or TorchScript container: the model,
the resource configuration, the extra configuration mapping (keys to
numeric values), and the task-mode flags set by the subclasses. -/
structure PyTorchContainer where
  model : TorchModel
  n_threads : Option Nat
  batch_size : Option Nat
  extra_config : List (String × Rat)
  is_regression : Bool
  is_anomaly_detection : Bool

/-- Construction of the PyTorch/TorchScript base container: the stored
fields, and the assert that n_threads is not None before the torch
thread counts are set (torch.set_num_interop_threads(1) and
torch.set_num_threads(n) mutate process-wide state not modelled here). -/
def PyTorchTorchscriptSklearnContainer.init (model : TorchModel)
    (n_threads batch_size : Option Nat) (extra_config : List (String × Rat)) :
    Except Err PyTorchContainer :=
  match n_threads with
  | none => Except.error Err.assertionError
  | some _ =>
      Except.ok ⟨model, n_threads, batch_size, extra_config, false, false⟩

/-- Construction of the regression container: the base construction,
then the assert that the regression and anomaly-detection flags are not
both set, then the flags are stored. There is no output-count check for
this backend. -/
def PyTorchSklearnContainerRegression.init (model : TorchModel)
    (n_threads batch_size : Option Nat)
    (is_regression is_anomaly_detection : Bool)
    (extra_config : List (String × Rat)) : Except Err PyTorchContainer :=
  match PyTorchTorchscriptSklearnContainer.init model n_threads batch_size extra_config with
  | Except.error e => Except.error e
  | Except.ok c =>
      if is_regression ∧ is_anomaly_detection then Except.error Err.assertionError
      else
        Except.ok { c with
          is_regression := is_regression,
          is_anomaly_detection := is_anomaly_detection }

/-- Construction of the classification container: regression
construction with is_regression set to False (and the anomaly flag left
at its False default). No output-count check is performed. -/
def PyTorchSklearnContainerClassification.init (model : TorchModel)
    (n_threads batch_size : Option Nat) (extra_config : List (String × Rat)) :
    Except Err PyTorchContainer :=
  PyTorchSklearnContainerRegression.init model n_threads batch_size false false extra_config

/-- Construction of the anomaly-detection container: regression
construction with is_regression False and is_anomaly_detection True. -/
def PyTorchSklearnContainerAnomalyDetection.init (model : TorchModel)
    (n_threads batch_size : Option Nat) (extra_config : List (String × Rat)) :
    Except Err PyTorchContainer :=
  PyTorchSklearnContainerRegression.init model n_threads batch_size false true extra_config

/-- Result of a predict call: a single host array, or (for the ONNX
regression path, which returns the session run result as-is) the list of
output arrays. -/
inductive PyResult where
  | arr (a : NDArray)
  | arrList (xs : List NDArray)
deriving DecidableEq

/-- The transformer transform: model.forward(*inputs).cpu().numpy(); a
tuple result would fail the .cpu() attribute access. -/
def PyTorchSklearnContainerTransformer.transform (c : PyTorchContainer)
    (inputs : List PyVal) : Except Err NDArray :=
  match c.model.forward inputs with
  | TorchOut.single t => Except.ok t
  | TorchOut.tuple _ => Except.error Err.attributeError

/-- The regression-family predict: on regression the single forward
output flattened; on anomaly detection the first output flattened; on
classification the first output unflattened. -/
def PyTorchSklearnContainerRegression.predict (c : PyTorchContainer)
    (inputs : List PyVal) : Except Err PyResult :=
  if c.is_regression then
    match c.model.forward inputs with
    | TorchOut.single t => Except.ok (PyResult.arr (flatten1 t))
    | TorchOut.tuple _ => Except.error Err.attributeError
  else if c.is_anomaly_detection then
    match torchIndex (c.model.forward inputs) 0 with
    | Except.error e => Except.error e
    | Except.ok t => Except.ok (PyResult.arr (flatten1 t))
  else
    match torchIndex (c.model.forward inputs) 0 with
    | Except.error e => Except.error e
    | Except.ok t => Except.ok (PyResult.arr t)

/-- The classifier predict_proba: the second forward output, without
flattening. -/
def PyTorchSklearnContainerClassification.predict_proba (c : PyTorchContainer)
    (inputs : List PyVal) : Except Err NDArray :=
  match torchIndex (c.model.forward inputs) 1 with
  | Except.error e => Except.error e
  | Except.ok t => Except.ok t

/-- The anomaly-detection decision_function: the second forward output
flattened, then, only when the score-shift key is present in the extra
configuration, the shift scalar added to every element. -/
def PyTorchSklearnContainerAnomalyDetection.decision_function (c : PyTorchContainer)
    (inputs : List PyVal) : Except Err NDArray :=
  match torchIndex (c.model.forward inputs) 1 with
  | Except.error e => Except.error e
  | Except.ok t =>
      let scores := flatten1 t
      match List.lookup IFOREST_THRESHOLD c.extra_config with
      | some v => Except.ok (addScalar scores v)
      | none => Except.ok scores

/-- The anomaly-detection score_samples: the decision_function result
plus the scalar under the score-offset key, looked up with no guard
(python evaluates the decision_function call before the lookup, so the
KeyError only arises once the scores are available). -/
def PyTorchSklearnContainerAnomalyDetection.score_samples (c : PyTorchContainer)
    (inputs : List PyVal) : Except Err NDArray :=
  match PyTorchSklearnContainerAnomalyDetection.decision_function c inputs with
  | Except.error e => Except.error e
  | Except.ok s =>
      match List.lookup OFFSET c.extra_config with
      | some v => Except.ok (addScalar s v)
      | none => Except.error (Err.keyError OFFSET)

/-! ### ONNX containers -/

/-- An onnxruntime inference session built from the serialized model:
its declared input names, declared output names, and the run primitive
taking the requested output names and the named inputs. -/
structure ORTSession where
  input_names : List String
  output_names : List String
  run : List String → List (String × NDArray) → List NDArray

/-- Session options as configured at construction: none means the
backend default is left in place (use-all-threads intra-op, default
inter-op, sequential execution being the engine default). -/
structure SessOptions where
  intra_op_num_threads : Option Nat
  inter_op_num_threads : Option Nat
  sequential_execution : Bool
deriving DecidableEq

/-- The backend-default session options. -/
def defaultSessOptions : SessOptions := ⟨none, none, true⟩

/-- State of a constructed ONNX container. -/
structure ONNXContainer where
  session : ORTSession
  n_threads : Option Nat
  batch_size : Option Nat
  extra_config : List (String × Rat)
  sess_options : SessOptions
  is_regression : Bool
  is_anomaly_detection : Bool

/-- Construction of the base ONNX container: fails fatally when the
onnxruntime engine is absent; otherwise the session options are set from
n_threads when it is present (intra-op count, inter-op 1, sequential
mode) and left at the backend default when it is None. -/
def ONNXSklearnContainer.init (ortInstalled : Bool) (session : ORTSession)
    (n_threads batch_size : Option Nat) (extra_config : List (String × Rat)) :
    Except Err ONNXContainer :=
  if ortInstalled then
    Except.ok
      { session := session
        n_threads := n_threads
        batch_size := batch_size
        extra_config := extra_config
        sess_options :=
          match n_threads with
          | some k => ⟨some k, some 1, true⟩
          | none => defaultSessOptions
        is_regression := false
        is_anomaly_detection := false }
  else Except.error Err.backendUnavailable

/-- Construction of the ONNX regression container: base construction,
the assert that the regression and anomaly flags are not both set, and,
only in pure-regression mode, the assert that exactly one output is
declared. -/
def ONNXSklearnContainerRegression.init (ortInstalled : Bool) (session : ORTSession)
    (n_threads batch_size : Option Nat)
    (is_regression is_anomaly_detection : Bool)
    (extra_config : List (String × Rat)) : Except Err ONNXContainer :=
  match ONNXSklearnContainer.init ortInstalled session n_threads batch_size extra_config with
  | Except.error e => Except.error e
  | Except.ok c =>
      if is_regression ∧ is_anomaly_detection then Except.error Err.assertionError
      else if is_regression ∧ session.output_names.length ≠ 1 then
        Except.error Err.assertionError
      else
        Except.ok { c with
          is_regression := is_regression,
          is_anomaly_detection := is_anomaly_detection }

/-- Construction of the ONNX transformer container: base construction
then the assert that exactly one output is declared. -/
def ONNXSklearnContainerTransformer.init (ortInstalled : Bool) (session : ORTSession)
    (n_threads batch_size : Option Nat) (extra_config : List (String × Rat)) :
    Except Err ONNXContainer :=
  match ONNXSklearnContainer.init ortInstalled session n_threads batch_size extra_config with
  | Except.error e => Except.error e
  | Except.ok c =>
      if session.output_names.length = 1 then Except.ok c
      else Except.error Err.assertionError

/-- Construction of the ONNX classification container: regression
construction with is_regression False, then the assert that exactly two
outputs are declared. -/
def ONNXSklearnContainerClassification.init (ortInstalled : Bool) (session : ORTSession)
    (n_threads batch_size : Option Nat) (extra_config : List (String × Rat)) :
    Except Err ONNXContainer :=
  match ONNXSklearnContainerRegression.init ortInstalled session n_threads batch_size
      false false extra_config with
  | Except.error e => Except.error e
  | Except.ok c =>
      if session.output_names.length = 2 then Except.ok c
      else Except.error Err.assertionError

/-- Construction of the ONNX anomaly-detection container: regression
construction with the anomaly flag set, then the assert that exactly two
outputs are declared. -/
def ONNXSklearnContainerAnomalyDetection.init (ortInstalled : Bool) (session : ORTSession)
    (n_threads batch_size : Option Nat) (extra_config : List (String × Rat)) :
    Except Err ONNXContainer :=
  match ONNXSklearnContainerRegression.init ortInstalled session n_threads batch_size
      false true extra_config with
  | Except.error e => Except.error e
  | Except.ok c =>
      if session.output_names.length = 2 then Except.ok c
      else Except.error Err.assertionError

/-- The named-input adapter of the ONNX containers: when fewer
positional inputs than declared names arrive, the first positional input
is taken as the input collection (inputs[0], an IndexError on an empty
argument tuple); the count is then asserted equal to the declared-name
count; finally every input is read, passed through np.array and keyed by
the declared name at its position. -/
def get_named_inputs (input_names : List String) (inputs : List PyVal) :
    Except Err (List (String × NDArray)) :=
  if inputs.length < input_names.length then
    match inputs with
    | [] => Except.error Err.indexError
    | v :: _ =>
        match pyLenE v with
        | Except.error e => Except.error e
        | Except.ok n =>
            if n = input_names.length then
              match collectItems v n with
              | Except.error e => Except.error e
              | Except.ok items =>
                  Except.ok (input_names.zip (items.map npArrayOf))
            else Except.error Err.arityAssert
  else if inputs.length = input_names.length then
    Except.ok (input_names.zip (inputs.map npArrayOf))
  else Except.error Err.arityAssert

/-- The ONNX transformer transform: run the session on all declared
outputs over the named inputs. -/
def ONNXSklearnContainerTransformer.transform (c : ONNXContainer)
    (inputs : List PyVal) : Except Err (List NDArray) :=
  match get_named_inputs c.session.input_names inputs with
  | Except.error e => Except.error e
  | Except.ok named => Except.ok (c.session.run c.session.output_names named)

/-- The ONNX regression-family predict: in regression mode the session
run result is returned as-is (the list of output arrays, not flattened);
in anomaly-detection mode np.array is applied to the run result, the
leading element taken and flattened; in classification mode the first
requested output is taken unflattened. -/
def ONNXSklearnContainerRegression.predict (c : ONNXContainer)
    (inputs : List PyVal) : Except Err PyResult :=
  match get_named_inputs c.session.input_names inputs with
  | Except.error e => Except.error e
  | Except.ok named =>
      if c.is_regression then
        Except.ok (PyResult.arrList (c.session.run c.session.output_names named))
      else if c.is_anomaly_detection then
        match c.session.output_names[0]? with
        | none => Except.error Err.indexError
        | some o0 =>
            match ndarrayRow (stackArrays (c.session.run [o0] named)) 0 with
            | Except.error e => Except.error e
            | Except.ok a => Except.ok (PyResult.arr (flatten1 a))
      else
        match c.session.output_names[0]? with
        | none => Except.error Err.indexError
        | some o0 =>
            match (c.session.run [o0] named)[0]? with
            | none => Except.error Err.indexError
            | some a => Except.ok (PyResult.arr a)

/-- The ONNX classifier predict_proba: the run result for the second
declared output name, first element, unflattened. -/
def ONNXSklearnContainerClassification.predict_proba (c : ONNXContainer)
    (inputs : List PyVal) : Except Err NDArray :=
  match get_named_inputs c.session.input_names inputs with
  | Except.error e => Except.error e
  | Except.ok named =>
      match c.session.output_names[1]? with
      | none => Except.error Err.indexError
      | some o1 =>
          match (c.session.run [o1] named)[0]? with
          | none => Except.error Err.indexError
          | some a => Except.ok a

/-- The ONNX anomaly-detection decision_function: the run result for the
second declared output name, first element, flattened, then, only when
the score-shift key is present in the extra configuration, the shift
scalar added to every element. -/
def ONNXSklearnContainerAnomalyDetection.decision_function (c : ONNXContainer)
    (inputs : List PyVal) : Except Err NDArray :=
  match get_named_inputs c.session.input_names inputs with
  | Except.error e => Except.error e
  | Except.ok named =>
      match c.session.output_names[1]? with
      | none => Except.error Err.indexError
      | some o1 =>
          match (c.session.run [o1] named)[0]? with
          | none => Except.error Err.indexError
          | some a =>
              let scores := flatten1 a
              match List.lookup IFOREST_THRESHOLD c.extra_config with
              | some v => Except.ok (addScalar scores v)
              | none => Except.ok scores

/-- The ONNX anomaly-detection score_samples: the decision_function
result plus the scalar under the score-offset key, looked up without a
guard. -/
def ONNXSklearnContainerAnomalyDetection.score_samples (c : ONNXContainer)
    (inputs : List PyVal) : Except Err NDArray :=
  match ONNXSklearnContainerAnomalyDetection.decision_function c inputs with
  | Except.error e => Except.error e
  | Except.ok s =>
      match List.lookup OFFSET c.extra_config with
      | some v => Except.ok (addScalar s v)
      | none => Except.error (Err.keyError OFFSET)

/-! ### Concrete instances used by witnesses and counterexamples -/

/-- A 3-element label output array. -/
def demoLabels : NDArray := ⟨[3], [1, -1, 1], "int64"⟩

/-- A 3-by-1 score output array. -/
def demoScores : NDArray := ⟨[3, 1], [3, 4, 5], "float32"⟩

/-- A torch anomaly-detection model returning labels and scores. -/
def demoTorchADModel : TorchModel :=
  ⟨fun _ => TorchOut.tuple [demoLabels, demoScores]⟩

/-- A torch model with a single output. -/
def demoSingleTorchModel : TorchModel := ⟨fun _ => TorchOut.single demoScores⟩

/-- A torch classification model with only one declared output. -/
def oneOutTorchModel : TorchModel := ⟨fun _ => TorchOut.tuple [demoLabels]⟩

/-- A PyTorch anomaly-detection container with both the score-shift and
the score-offset keys configured. -/
def demoTorchAD : PyTorchContainer :=
  ⟨demoTorchADModel, some 1, none,
   [(IFOREST_THRESHOLD, -1/10), (OFFSET, 5/2)], false, true⟩

/-- A PyTorch anomaly-detection container with an empty extra
configuration (neither score key present). -/
def demoTorchADBare : PyTorchContainer :=
  ⟨demoTorchADModel, some 1, none, [], false, true⟩

/-- A PyTorch regression container. -/
def demoTorchReg : PyTorchContainer :=
  ⟨demoSingleTorchModel, some 1, none, [], true, false⟩

/-- The bad classifier container the unchecked construction produces. -/
def demoBadCls : PyTorchContainer :=
  ⟨oneOutTorchModel, some 4, none, [], false, false⟩

/-- An ONNX session with one input and two outputs whose run primitive
always produces the score array. -/
def demoSessionAD : ORTSession :=
  ⟨["input"], ["label", "score"], fun _ _ => [demoScores]⟩

/-- An ONNX session declaring a single output. -/
def demoSessionReg : ORTSession :=
  ⟨["input"], ["variable"], fun _ _ => [demoScores]⟩

/-- An ONNX anomaly-detection container with both score keys. -/
def demoOnnxAD : ONNXContainer :=
  ⟨demoSessionAD, some 1, none,
   [(IFOREST_THRESHOLD, -1/10), (OFFSET, 5/2)],
   ⟨some 1, some 1, true⟩, false, true⟩

/-- An ONNX anomaly-detection container with no score keys. -/
def demoOnnxADBare : ONNXContainer :=
  ⟨demoSessionAD, some 1, none, [], ⟨some 1, some 1, true⟩, false, true⟩

/-- An ONNX pure-regression container. -/
def demoOnnxReg : ONNXContainer :=
  ⟨demoSessionReg, some 1, none, [], ⟨some 1, some 1, true⟩, true, false⟩

/-- A single positional array input. -/
def demoInput : List PyVal :=
  [PyVal.ndarray ⟨[3, 2], [1, 2, 3, 4, 5, 6], "float64"⟩]

/-- Ten rationals for the first demo column. -/
def demoCol1 : List Rat := [0, 1, 2, 3, 4, 5, 6, 7, 8, 9]

/-- Ten rationals for the second demo column. -/
def demoCol2 : List Rat := [10, 11, 12, 13, 14, 15, 16, 17, 18, 19]

/-- Ten rationals for the third demo column. -/
def demoCol3 : List Rat := [20, 21, 22, 23, 24, 25, 26, 27, 28, 29]

/-- A 3-column, 10-row dataframe. -/
def demoDF : PyVal :=
  PyVal.dataframe [("a", demoCol1), ("b", demoCol2), ("c", demoCol3)]

/-! ### Claim C1 -/

/-- Claim C1: for both the PyTorch and the ONNX anomaly-detection
containers and every input, score_samples equals the decision_function
result plus the scalar stored under the score-offset key of the extra
configuration, and when that key is absent the unguarded lookup fails
with the missing-key error. -/
theorem score_samples_is_decision_function_plus_offset :
    (∀ (c : PyTorchContainer) (x : List PyVal) (v : Rat),
        List.lookup OFFSET c.extra_config = some v →
        PyTorchSklearnContainerAnomalyDetection.score_samples c x =
          Except.map (fun s => addScalar s v)
            (PyTorchSklearnContainerAnomalyDetection.decision_function c x)) ∧
    (∀ (c : PyTorchContainer) (x : List PyVal) (s : NDArray),
        List.lookup OFFSET c.extra_config = none →
        PyTorchSklearnContainerAnomalyDetection.decision_function c x = Except.ok s →
        PyTorchSklearnContainerAnomalyDetection.score_samples c x =
          Except.error (Err.keyError OFFSET)) ∧
    (∀ (c : ONNXContainer) (x : List PyVal) (v : Rat),
        List.lookup OFFSET c.extra_config = some v →
        ONNXSklearnContainerAnomalyDetection.score_samples c x =
          Except.map (fun s => addScalar s v)
            (ONNXSklearnContainerAnomalyDetection.decision_function c x)) ∧
    (∀ (c : ONNXContainer) (x : List PyVal) (s : NDArray),
        List.lookup OFFSET c.extra_config = none →
        ONNXSklearnContainerAnomalyDetection.decision_function c x = Except.ok s →
        ONNXSklearnContainerAnomalyDetection.score_samples c x =
          Except.error (Err.keyError OFFSET)) := by
  refine ⟨?_, ?_, ?_, ?_⟩
  · intro c x v hv
    unfold PyTorchSklearnContainerAnomalyDetection.score_samples
    cases hdf : PyTorchSklearnContainerAnomalyDetection.decision_function c x <;>
      simp [hv, Except.map]
  · intro c x s hnone hdf
    unfold PyTorchSklearnContainerAnomalyDetection.score_samples
    simp [hdf, hnone]
  · intro c x v hv
    unfold ONNXSklearnContainerAnomalyDetection.score_samples
    cases hdf : ONNXSklearnContainerAnomalyDetection.decision_function c x <;>
      simp [hv, Except.map]
  · intro c x s hnone hdf
    unfold ONNXSklearnContainerAnomalyDetection.score_samples
    simp [hdf, hnone]

/-- Witness for claim C1: evaluated at concrete containers with offset
5/2 present and with the offset key absent, on both backends. -/
theorem score_samples_is_decision_function_plus_offset_witness :
    (List.lookup OFFSET demoTorchAD.extra_config = some (5/2) ∧
      PyTorchSklearnContainerAnomalyDetection.score_samples demoTorchAD demoInput =
        Except.map (fun s => addScalar s (5/2))
          (PyTorchSklearnContainerAnomalyDetection.decision_function demoTorchAD demoInput)) ∧
    (List.lookup OFFSET demoTorchADBare.extra_config = none ∧
      PyTorchSklearnContainerAnomalyDetection.decision_function demoTorchADBare demoInput =
        Except.ok (flatten1 demoScores) ∧
      PyTorchSklearnContainerAnomalyDetection.score_samples demoTorchADBare demoInput =
        Except.error (Err.keyError OFFSET)) ∧
    (List.lookup OFFSET demoOnnxAD.extra_config = some (5/2) ∧
      ONNXSklearnContainerAnomalyDetection.score_samples demoOnnxAD demoInput =
        Except.map (fun s => addScalar s (5/2))
          (ONNXSklearnContainerAnomalyDetection.decision_function demoOnnxAD demoInput)) ∧
    (List.lookup OFFSET demoOnnxADBare.extra_config = none ∧
      ONNXSklearnContainerAnomalyDetection.decision_function demoOnnxADBare demoInput =
        Except.ok (flatten1 demoScores) ∧
      ONNXSklearnContainerAnomalyDetection.score_samples demoOnnxADBare demoInput =
        Except.error (Err.keyError OFFSET)) :=
  ⟨⟨rfl,
    score_samples_is_decision_function_plus_offset.1 demoTorchAD demoInput (5/2) rfl⟩,
   ⟨rfl, rfl,
    score_samples_is_decision_function_plus_offset.2.1 demoTorchADBare demoInput
      (flatten1 demoScores) rfl rfl⟩,
   ⟨rfl,
    score_samples_is_decision_function_plus_offset.2.2.1 demoOnnxAD demoInput (5/2) rfl⟩,
   ⟨rfl, rfl,
    score_samples_is_decision_function_plus_offset.2.2.2 demoOnnxADBare demoInput
      (flatten1 demoScores) rfl rfl⟩⟩

/-! ### Claim C2 -/

/-- Claim C2: decision_function of both anomaly-detection backends
selects the second declared backend output, flattens it to one
dimension, and adds the score-shift scalar to every element exactly when
the score-shift key is present in the extra configuration, returning the
raw flattened values unmodified when it is absent. -/
theorem decision_function_second_output_flatten_shift :
    (∀ (c : PyTorchContainer) (x : List PyVal) (t0 t1 : NDArray)
        (rest : List NDArray) (v : Rat),
        c.model.forward x = TorchOut.tuple (t0 :: t1 :: rest) →
        List.lookup IFOREST_THRESHOLD c.extra_config = some v →
        PyTorchSklearnContainerAnomalyDetection.decision_function c x =
          Except.ok (addScalar (flatten1 t1) v)) ∧
    (∀ (c : PyTorchContainer) (x : List PyVal) (t0 t1 : NDArray)
        (rest : List NDArray),
        c.model.forward x = TorchOut.tuple (t0 :: t1 :: rest) →
        List.lookup IFOREST_THRESHOLD c.extra_config = none →
        PyTorchSklearnContainerAnomalyDetection.decision_function c x =
          Except.ok (flatten1 t1)) ∧
    (∀ (c : ONNXContainer) (x : List PyVal) (named : List (String × NDArray))
        (o0 o1 : String) (restN : List String) (a : NDArray)
        (restA : List NDArray) (v : Rat),
        get_named_inputs c.session.input_names x = Except.ok named →
        c.session.output_names = o0 :: o1 :: restN →
        c.session.run [o1] named = a :: restA →
        List.lookup IFOREST_THRESHOLD c.extra_config = some v →
        ONNXSklearnContainerAnomalyDetection.decision_function c x =
          Except.ok (addScalar (flatten1 a) v)) ∧
    (∀ (c : ONNXContainer) (x : List PyVal) (named : List (String × NDArray))
        (o0 o1 : String) (restN : List String) (a : NDArray)
        (restA : List NDArray),
        get_named_inputs c.session.input_names x = Except.ok named →
        c.session.output_names = o0 :: o1 :: restN →
        c.session.run [o1] named = a :: restA →
        List.lookup IFOREST_THRESHOLD c.extra_config = none →
        ONNXSklearnContainerAnomalyDetection.decision_function c x =
          Except.ok (flatten1 a)) := by
  refine ⟨?_, ?_, ?_, ?_⟩
  · intro c x t0 t1 rest v hfwd hv
    unfold PyTorchSklearnContainerAnomalyDetection.decision_function
    simp [hfwd, torchIndex, hv]
  · intro c x t0 t1 rest hfwd hnone
    unfold PyTorchSklearnContainerAnomalyDetection.decision_function
    simp [hfwd, torchIndex, hnone]
  · intro c x named o0 o1 restN a restA v hnamed houts hrun hv
    unfold ONNXSklearnContainerAnomalyDetection.decision_function
    simp [hnamed, houts, hrun, hv]
  · intro c x named o0 o1 restN a restA hnamed houts hrun hnone
    unfold ONNXSklearnContainerAnomalyDetection.decision_function
    simp [hnamed, houts, hrun, hnone]

/-- The named-input set the adapter builds from the demo input. -/
def demoNamed : List (String × NDArray) :=
  [("input", ⟨[3, 2], [1, 2, 3, 4, 5, 6], "float64"⟩)]

/-- Witness for claim C2: evaluated at concrete containers with the
score-shift key set to -1/10 and with the key absent, on both
backends. -/
theorem decision_function_second_output_flatten_shift_witness :
    (demoTorchAD.model.forward demoInput =
        TorchOut.tuple (demoLabels :: demoScores :: []) ∧
      List.lookup IFOREST_THRESHOLD demoTorchAD.extra_config = some (-1/10) ∧
      PyTorchSklearnContainerAnomalyDetection.decision_function demoTorchAD demoInput =
        Except.ok (addScalar (flatten1 demoScores) (-1/10))) ∧
    (List.lookup IFOREST_THRESHOLD demoTorchADBare.extra_config = none ∧
      PyTorchSklearnContainerAnomalyDetection.decision_function demoTorchADBare demoInput =
        Except.ok (flatten1 demoScores)) ∧
    (get_named_inputs demoOnnxAD.session.input_names demoInput = Except.ok demoNamed ∧
      demoOnnxAD.session.output_names = "label" :: "score" :: [] ∧
      demoOnnxAD.session.run ["score"] demoNamed = demoScores :: [] ∧
      ONNXSklearnContainerAnomalyDetection.decision_function demoOnnxAD demoInput =
        Except.ok (addScalar (flatten1 demoScores) (-1/10))) ∧
    (List.lookup IFOREST_THRESHOLD demoOnnxADBare.extra_config = none ∧
      ONNXSklearnContainerAnomalyDetection.decision_function demoOnnxADBare demoInput =
        Except.ok (flatten1 demoScores)) :=
  ⟨⟨rfl, rfl,
    decision_function_second_output_flatten_shift.1 demoTorchAD demoInput
      demoLabels demoScores [] (-1/10) rfl rfl⟩,
   ⟨rfl,
    decision_function_second_output_flatten_shift.2.1 demoTorchADBare demoInput
      demoLabels demoScores [] rfl rfl⟩,
   ⟨rfl, rfl, rfl,
    decision_function_second_output_flatten_shift.2.2.1 demoOnnxAD demoInput
      demoNamed "label" "score" [] demoScores [] (-1/10) rfl rfl rfl rfl⟩,
   ⟨rfl,
    decision_function_second_output_flatten_shift.2.2.2 demoOnnxADBare demoInput
      demoNamed "label" "score" [] demoScores [] rfl rfl rfl rfl⟩⟩

/-! ### Claim C3 -/

/-- Claim C3 (code bug): the dataframe-splitting branch of the
torchscript wrapper is unreachable, because its guard compares the type
of the rebuilt positional-argument list (always a list) against
DataFrame; a single 3-column 10-row frame therefore falls through to the
coercion loop and raises the unsupported-input-type error instead of
being split, even though the body of the guarded branch would produce
exactly the three 10-by-1 column arrays, in column order, that the
specification describes. -/
theorem torchscript_wrapper_dataframe_branch_unreachable :
    torchscript_wrapper true (some "cpu") [demoDF] =
      Except.error (Err.unsupportedInputType 0 "pandas.DataFrame") ∧
    dataframeSplit [demoDF] =
      [PyVal.ndarray ⟨[10, 1], demoCol1, "float64"⟩,
       PyVal.ndarray ⟨[10, 1], demoCol2, "float64"⟩,
       PyVal.ndarray ⟨[10, 1], demoCol3, "float64"⟩] :=
  ⟨rfl, rfl⟩

/-! ### Claim C4 -/

/-- Reading a python list of arrays by successive indices from position
i for k steps yields exactly the corresponding slice of the list. -/
lemma collectFrom_pylist (items : List NDArray) :
    ∀ (k i : Nat), i + k = items.length →
      collectFrom (PyVal.pylist items) i k =
        Except.ok (((items.drop i).take k).map PyVal.ndarray) := by
  intro k
  induction k with
  | zero => intro i h; simp [collectFrom]
  | succ k ih =>
      intro i h
      have hi : i < items.length := by omega
      have hitem : pyItem (PyVal.pylist items) i =
          Except.ok (PyVal.ndarray items[i]) := by
        simp [pyItem, List.getElem?_eq_getElem hi]
      have hrec := ih (i + 1) (by omega)
      rw [List.drop_eq_getElem_cons hi, List.take_succ_cons, List.map_cons]
      simp only [collectFrom, hitem, hrec]

/-- Reading all positions of a python list of arrays yields the list. -/
lemma collectItems_pylist (items : List NDArray) :
    collectItems (PyVal.pylist items) items.length =
      Except.ok (items.map PyVal.ndarray) := by
  have h := collectFrom_pylist items items.length 0 (by omega)
  simpa [collectItems] using h

/-- Converting arrays wrapped back as values with np.array is the
identity on the arrays. -/
lemma map_npArrayOf_map_ndarray :
    ∀ (l : List NDArray), List.map (npArrayOf ∘ PyVal.ndarray) l = l := by
  intro l
  induction l with
  | nil => rfl
  | cons a t iht => simp [npArrayOf, iht]

/-- Claim C4: the ONNX named-input adapter: with exactly as many
positional inputs as declared names every input is converted with
np.array and keyed by the declared name at its position; with more
inputs than names the arity assert fails; with fewer inputs than names
the first positional input is unwrapped one level and used as the input
collection, succeeding with the names zipped against its elements
exactly when its length equals the declared-name count and failing the
arity assert otherwise. -/
theorem get_named_inputs_arity :
    (∀ (names : List String) (inputs : List PyVal),
        inputs.length = names.length →
        get_named_inputs names inputs =
          Except.ok (names.zip (inputs.map npArrayOf))) ∧
    (∀ (names : List String) (inputs : List PyVal),
        names.length < inputs.length →
        get_named_inputs names inputs = Except.error Err.arityAssert) ∧
    (∀ (names : List String) (items : List NDArray) (rest : List PyVal),
        (PyVal.pylist items :: rest).length < names.length →
        items.length = names.length →
        get_named_inputs names (PyVal.pylist items :: rest) =
          Except.ok (names.zip items)) ∧
    (∀ (names : List String) (items : List NDArray) (rest : List PyVal),
        (PyVal.pylist items :: rest).length < names.length →
        items.length ≠ names.length →
        get_named_inputs names (PyVal.pylist items :: rest) =
          Except.error Err.arityAssert) := by
  refine ⟨?_, ?_, ?_, ?_⟩
  · intro names inputs h
    have h1 : ¬ inputs.length < names.length := by omega
    simp [get_named_inputs, h1, h]
  · intro names inputs h
    have h1 : ¬ inputs.length < names.length := by omega
    have h2 : inputs.length ≠ names.length := by omega
    simp [get_named_inputs, h1, h2]
  · intro names items rest h1 h2
    simp only [get_named_inputs, if_pos h1, pyLenE, if_pos h2,
      collectItems_pylist items]
    simp [map_npArrayOf_map_ndarray]
  · intro names items rest h1 h2
    simp only [get_named_inputs, if_pos h1, pyLenE]
    rw [if_neg h2]

/-- A first demo column array for the pre-grouped collection. -/
def demoArrA : NDArray := ⟨[2, 1], [1, 2], "float64"⟩

/-- A second demo column array for the pre-grouped collection. -/
def demoArrB : NDArray := ⟨[2, 1], [3, 4], "float64"⟩

/-- A third demo column array for the pre-grouped collection. -/
def demoArrC : NDArray := ⟨[2, 1], [5, 6], "float64"⟩

/-- Witness for claim C4: the exact-arity case, the over-arity case, and
the two unwrapping cases evaluated on a 3-name backend fed one
pre-grouped collection of 3 (respectively 2) arrays. -/
theorem get_named_inputs_arity_witness :
    get_named_inputs ["a"] [PyVal.ndarray demoArrA] =
      Except.ok [("a", demoArrA)] ∧
    get_named_inputs ["a"] [PyVal.ndarray demoArrA, PyVal.ndarray demoArrB] =
      Except.error Err.arityAssert ∧
    get_named_inputs ["a", "b", "c"] [PyVal.pylist [demoArrA, demoArrB, demoArrC]] =
      Except.ok [("a", demoArrA), ("b", demoArrB), ("c", demoArrC)] ∧
    get_named_inputs ["a", "b", "c"] [PyVal.pylist [demoArrA, demoArrB]] =
      Except.error Err.arityAssert :=
  ⟨get_named_inputs_arity.1 ["a"] [PyVal.ndarray demoArrA] rfl,
   get_named_inputs_arity.2.1 ["a"] [PyVal.ndarray demoArrA, PyVal.ndarray demoArrB]
     (by decide),
   get_named_inputs_arity.2.2.1 ["a", "b", "c"]
     [demoArrA, demoArrB, demoArrC] [] (by decide) rfl,
   get_named_inputs_arity.2.2.2 ["a", "b", "c"]
     [demoArrA, demoArrB] [] (by decide) (by decide)⟩

/-! ### Claim C5 -/

/-- Claim C5 (counterexample): the PyTorch classifier construction
performs no output-count check: against a model with a single declared
output it succeeds, and the missing second output only fails later, at
the first predict_proba call. -/
theorem pytorch_classifier_construction_unchecked :
    PyTorchSklearnContainerClassification.init oneOutTorchModel (some 4) none [] =
      Except.ok demoBadCls ∧
    PyTorchSklearnContainerClassification.predict_proba demoBadCls [] =
      Except.error Err.indexError :=
  ⟨rfl, rfl⟩

/-- Claim C5 (amended): the ONNX classifier construction fails at
construction time with the assertion error whenever the session declares
a number of outputs other than 2, while the PyTorch classifier
construction (given a non-None thread count) performs no output-count
check and always succeeds. -/
theorem classifier_construction_output_check :
    (∀ (session : ORTSession) (nt bs : Option Nat)
        (extra : List (String × Rat)),
        session.output_names.length ≠ 2 →
        ONNXSklearnContainerClassification.init true session nt bs extra =
          Except.error Err.assertionError) ∧
    (∀ (model : TorchModel) (k : Nat) (bs : Option Nat)
        (extra : List (String × Rat)),
        (PyTorchSklearnContainerClassification.init model (some k) bs extra).isOk =
          true) := by
  constructor
  · intro session nt bs extra h
    simp [ONNXSklearnContainerClassification.init,
      ONNXSklearnContainerRegression.init, ONNXSklearnContainer.init, h]
  · intro model k bs extra
    rfl

/-- An ONNX session declaring one input and one output, used where a
wrong-output-count classifier backend is needed. -/
def demoSession1 : ORTSession := ⟨["input"], ["out"], fun _ _ => [demoScores]⟩

/-- Witness for the amended claim C5: a 1-output session fails ONNX
classifier construction, while the PyTorch classifier construction
succeeds for the 1-output torch model. -/
theorem classifier_construction_output_check_witness :
    (demoSession1.output_names.length ≠ 2 ∧
      ONNXSklearnContainerClassification.init true demoSession1 none none [] =
        Except.error Err.assertionError) ∧
    (PyTorchSklearnContainerClassification.init oneOutTorchModel (some 4) none []).isOk =
      true :=
  ⟨⟨by decide,
    classifier_construction_output_check.1 demoSession1 none none [] (by decide)⟩,
   classifier_construction_output_check.2 oneOutTorchModel 4 none []⟩

/-! ### Claim C6 -/

/-- Claim C6 (code bug): constructing the PyTorch/TorchScript base
container with an absent thread count fails its construction assert,
although the constructor's own parameter default is None and the base
docstring declares None to mean use-all-threads; the ONNX base container
accepts None and leaves the session options at the backend default. -/
theorem n_threads_none_construction :
    PyTorchTorchscriptSklearnContainer.init demoSingleTorchModel none none [] =
      Except.error Err.assertionError ∧
    (ONNXSklearnContainer.init true demoSession1 none none []).isOk = true ∧
    Except.map (fun c => c.sess_options)
        (ONNXSklearnContainer.init true demoSession1 none none []) =
      Except.ok defaultSessOptions :=
  ⟨rfl, rfl, rfl⟩

/-! ### Claim C7 -/

/-- Claim C7 (counterexample): the ONNX named-input path performs no
input type checking and no float coercion: a value of an unsupported
type is converted by np.array into an object array instead of raising an
unsupported-input-type error, and an integer array keeps its integer
dtype instead of being converted to floating point. -/
theorem onnx_inputs_not_type_checked :
    get_named_inputs ["x"] [PyVal.other "str"] =
      Except.ok [("x", ⟨[], [], "object"⟩)] ∧
    get_named_inputs ["x"] [PyVal.ndarray ⟨[2], [1, 2], "int64"⟩] =
      Except.ok [("x", ⟨[2], [1, 2], "int64"⟩)] :=
  ⟨rfl, rfl⟩

/-- Claim C7 (amended): on the TorchScript path every positional numpy
array is converted to a float32 cpu tensor and then moved per the device
rule, every torch tensor passes through (up to the device move), and any
value of another type fails immediately with the unsupported-input-type
error carrying the positional index and the type name; the ONNX path
instead passes every input through np.array with no type check at
all. -/
theorem input_coercion_per_backend :
    (∀ (device : Option String) (i : Nat) (a : NDArray),
        coerceInput device i (PyVal.ndarray a) =
          Except.ok (moveTo device
            (PyVal.tensor ⟨a.shape, a.data, "float32"⟩ (some "cpu")))) ∧
    (∀ (device : Option String) (i : Nat) (a : NDArray) (d : Option String),
        coerceInput device i (PyVal.tensor a d) =
          Except.ok (moveTo device (PyVal.tensor a d))) ∧
    (∀ (device : Option String) (i : Nat) (v : PyVal),
        isArrayOrTensor v = false →
        coerceInput device i v =
          Except.error (Err.unsupportedInputType i (pyTypeName v))) ∧
    (∀ (names : List String) (inputs : List PyVal),
        inputs.length = names.length →
        get_named_inputs names inputs =
          Except.ok (names.zip (inputs.map npArrayOf))) := by
  refine ⟨fun _ _ _ => rfl, fun _ _ _ _ => rfl, ?_, ?_⟩
  · intro device i v h
    cases v with
    | ndarray a => simp [isArrayOrTensor] at h
    | tensor a d => simp [isArrayOrTensor] at h
    | scalar q => rfl
    | dataframe cols => rfl
    | pylist items => rfl
    | other t => rfl
  · intro names inputs h
    have h1 : ¬ inputs.length < names.length := by omega
    simp [get_named_inputs, h1, h]

/-- Witness for the amended claim C7: the three TorchScript coercion
cases at concrete inputs on a non-cpu device, and the ONNX unchecked
conversion at a concrete input. -/
theorem input_coercion_per_backend_witness :
    coerceInput (some "cuda") 0 (PyVal.ndarray demoArrA) =
      Except.ok (moveTo (some "cuda")
        (PyVal.tensor ⟨demoArrA.shape, demoArrA.data, "float32"⟩ (some "cpu"))) ∧
    coerceInput (some "cuda") 1 (PyVal.tensor demoArrB none) =
      Except.ok (moveTo (some "cuda") (PyVal.tensor demoArrB none)) ∧
    (isArrayOrTensor (PyVal.other "str") = false ∧
      coerceInput (some "cuda") 2 (PyVal.other "str") =
        Except.error (Err.unsupportedInputType 2 (pyTypeName (PyVal.other "str")))) ∧
    get_named_inputs ["x"] [PyVal.pylist [demoArrA, demoArrB]] =
      Except.ok [("x", npArrayOf (PyVal.pylist [demoArrA, demoArrB]))] :=
  ⟨input_coercion_per_backend.1 (some "cuda") 0 demoArrA,
   input_coercion_per_backend.2.1 (some "cuda") 1 demoArrB none,
   ⟨rfl, input_coercion_per_backend.2.2.1 (some "cuda") 2 (PyVal.other "str") rfl⟩,
   input_coercion_per_backend.2.2.2 ["x"] [PyVal.pylist [demoArrA, demoArrB]] rfl⟩

/-! ### Claim C8 -/

/-- Claim C8 (counterexample): the ONNX pure-regression container (a
legitimately constructed one, as the first conjunct shows) returns from
predict the raw session run result, a one-element list holding the
3-by-1 output array, not the rank-1 flattened array the claim
describes. -/
theorem onnx_regression_predict_not_flattened :
    ONNXSklearnContainerRegression.init true demoSessionReg (some 1) none
        true false [] = Except.ok demoOnnxReg ∧
    ONNXSklearnContainerRegression.predict demoOnnxReg demoInput =
      Except.ok (PyResult.arrList [demoScores]) ∧
    PyResult.arrList [demoScores] ≠ PyResult.arr (flatten1 demoScores) :=
  ⟨rfl, rfl, by decide⟩

/-- Claim C8 (amended): the PyTorch regressor predict returns the single
forward output flattened to rank one, while the ONNX regressor predict
returns the list of arrays produced by running the session on all
declared outputs, unmodified. -/
theorem regression_predict_shapes :
    (∀ (c : PyTorchContainer) (x : List PyVal) (t : NDArray),
        c.is_regression = true →
        c.model.forward x = TorchOut.single t →
        PyTorchSklearnContainerRegression.predict c x =
          Except.ok (PyResult.arr (flatten1 t)) ∧
          (flatten1 t).shape.length = 1) ∧
    (∀ (c : ONNXContainer) (x : List PyVal) (named : List (String × NDArray)),
        c.is_regression = true →
        get_named_inputs c.session.input_names x = Except.ok named →
        ONNXSklearnContainerRegression.predict c x =
          Except.ok (PyResult.arrList (c.session.run c.session.output_names named))) := by
  constructor
  · intro c x t hreg hfwd
    constructor
    · simp [PyTorchSklearnContainerRegression.predict, hreg, hfwd]
    · rfl
  · intro c x named hreg hnamed
    simp [ONNXSklearnContainerRegression.predict, hnamed, hreg]

/-- Witness for the amended claim C8 at the concrete regression
containers of both backends. -/
theorem regression_predict_shapes_witness :
    (demoTorchReg.is_regression = true ∧
      demoTorchReg.model.forward demoInput = TorchOut.single demoScores ∧
      PyTorchSklearnContainerRegression.predict demoTorchReg demoInput =
        Except.ok (PyResult.arr (flatten1 demoScores)) ∧
      (flatten1 demoScores).shape.length = 1) ∧
    (demoOnnxReg.is_regression = true ∧
      get_named_inputs demoOnnxReg.session.input_names demoInput =
        Except.ok demoNamed ∧
      ONNXSklearnContainerRegression.predict demoOnnxReg demoInput =
        Except.ok (PyResult.arrList
          (demoOnnxReg.session.run demoOnnxReg.session.output_names demoNamed))) :=
  ⟨⟨rfl, rfl,
    (regression_predict_shapes.1 demoTorchReg demoInput demoScores rfl rfl).1,
    (regression_predict_shapes.1 demoTorchReg demoInput demoScores rfl rfl).2⟩,
   ⟨rfl, rfl,
    regression_predict_shapes.2 demoOnnxReg demoInput demoNamed rfl rfl⟩⟩

/-! ### Claim C9 -/

/-- Claim C9: the batch size stored at construction is never read by any
operation: two containers identical except for their batch_size agree on
every operation and every input, on both backends. -/
theorem batch_size_never_read (cp : PyTorchContainer) (co : ONNXContainer)
    (b1 b2 : Option Nat) (x : List PyVal) :
    PyTorchSklearnContainerTransformer.transform { cp with batch_size := b1 } x =
      PyTorchSklearnContainerTransformer.transform { cp with batch_size := b2 } x ∧
    PyTorchSklearnContainerRegression.predict { cp with batch_size := b1 } x =
      PyTorchSklearnContainerRegression.predict { cp with batch_size := b2 } x ∧
    PyTorchSklearnContainerClassification.predict_proba { cp with batch_size := b1 } x =
      PyTorchSklearnContainerClassification.predict_proba { cp with batch_size := b2 } x ∧
    PyTorchSklearnContainerAnomalyDetection.decision_function { cp with batch_size := b1 } x =
      PyTorchSklearnContainerAnomalyDetection.decision_function { cp with batch_size := b2 } x ∧
    PyTorchSklearnContainerAnomalyDetection.score_samples { cp with batch_size := b1 } x =
      PyTorchSklearnContainerAnomalyDetection.score_samples { cp with batch_size := b2 } x ∧
    ONNXSklearnContainerTransformer.transform { co with batch_size := b1 } x =
      ONNXSklearnContainerTransformer.transform { co with batch_size := b2 } x ∧
    ONNXSklearnContainerRegression.predict { co with batch_size := b1 } x =
      ONNXSklearnContainerRegression.predict { co with batch_size := b2 } x ∧
    ONNXSklearnContainerClassification.predict_proba { co with batch_size := b1 } x =
      ONNXSklearnContainerClassification.predict_proba { co with batch_size := b2 } x ∧
    ONNXSklearnContainerAnomalyDetection.decision_function { co with batch_size := b1 } x =
      ONNXSklearnContainerAnomalyDetection.decision_function { co with batch_size := b2 } x ∧
    ONNXSklearnContainerAnomalyDetection.score_samples { co with batch_size := b1 } x =
      ONNXSklearnContainerAnomalyDetection.score_samples { co with batch_size := b2 } x :=
  ⟨rfl, rfl, rfl, rfl, rfl, rfl, rfl, rfl, rfl, rfl⟩

/-! ### Claim C10 -/

/-- Claim C10: calling any operation of an ONNX container whose session
declares at least one input name with zero positional inputs fails with
the IndexError raised by unwrapping the empty argument tuple, which is
not the arity-assert error the specification names. -/
theorem zero_inputs_index_error (c : ONNXContainer)
    (h : c.session.input_names ≠ []) :
    get_named_inputs c.session.input_names [] = Except.error Err.indexError ∧
    Err.indexError ≠ Err.arityAssert ∧
    ONNXSklearnContainerTransformer.transform c [] = Except.error Err.indexError ∧
    ONNXSklearnContainerRegression.predict c [] = Except.error Err.indexError ∧
    ONNXSklearnContainerClassification.predict_proba c [] =
      Except.error Err.indexError ∧
    ONNXSklearnContainerAnomalyDetection.decision_function c [] =
      Except.error Err.indexError ∧
    ONNXSklearnContainerAnomalyDetection.score_samples c [] =
      Except.error Err.indexError := by
  have hlen : 0 < c.session.input_names.length :=
    List.length_pos.mpr h
  have hg : get_named_inputs c.session.input_names [] =
      Except.error Err.indexError := by
    unfold get_named_inputs
    simp [hlen]
  refine ⟨hg, by decide, ?_, ?_, ?_, ?_, ?_⟩
  · simp [ONNXSklearnContainerTransformer.transform, hg]
  · simp [ONNXSklearnContainerRegression.predict, hg]
  · simp [ONNXSklearnContainerClassification.predict_proba, hg]
  · simp [ONNXSklearnContainerAnomalyDetection.decision_function, hg]
  · simp [ONNXSklearnContainerAnomalyDetection.score_samples,
      ONNXSklearnContainerAnomalyDetection.decision_function, hg]

/-- Witness for claim C10 at a concrete one-input container. -/
theorem zero_inputs_index_error_witness :
    demoOnnxAD.session.input_names ≠ [] ∧
    get_named_inputs demoOnnxAD.session.input_names [] =
      Except.error Err.indexError ∧
    ONNXSklearnContainerAnomalyDetection.score_samples demoOnnxAD [] =
      Except.error Err.indexError :=
  ⟨by decide, (zero_inputs_index_error demoOnnxAD (by decide)).1,
   (zero_inputs_index_error demoOnnxAD (by decide)).2.2.2.2.2.2⟩
